import Mathlib

set_option maxRecDepth 100000

/-!
Verification development for the DEFRA code-analysis pipeline service.

The Python source is shallowly embedded: pure string processing becomes
functions on `List Char` / `String`, the MongoDB collection becomes an
association list, pydantic models become structures with `Option` fields,
and every external effect (LLM call, HTTP call, clock) becomes an explicit
parameter describing its outcome.
-/

namespace CodeAnalysis

/-! ## Python string primitives

Python `str` values are modelled as `List Char` (a Python string is a
sequence of code points, which matches character indexing and slicing).
-/

/-- Python `s.find(pat)`: index of the first occurrence of `pat` in `s`,
`none` standing for Python's `-1`. -/
def findSub (pat : List Char) : List Char → Option Nat
  | [] => if pat.isPrefixOf ([] : List Char) then some 0 else none
  | c :: rest =>
    if pat.isPrefixOf (c :: rest) then some 0
    else (findSub pat rest).map (· + 1)

/-- The characters Python `str.strip()` removes (ASCII whitespace range). -/
def isPySpace (c : Char) : Bool :=
  c = ' ' || c = '\t' || c = '\n' || c = '\r' || c = '\x0b' || c = '\x0c'

/-- Python `s.strip()`. -/
def pyStrip (s : List Char) : List Char :=
  ((s.dropWhile isPySpace).reverse.dropWhile isPySpace).reverse

/-- Python `s.isdigit()` (restricted to ASCII digits, which is what the
line-number markers contain): nonempty and all digits. -/
def isPyDigits (s : List Char) : Bool :=
  !s.isEmpty && s.all Char.isDigit

/-- Auxiliary for `splitOnSub`, with fuel bounding the recursion depth.
One occurrence of a nonempty pattern is consumed per step, so
`s.length + 1` fuel is always enough. -/
def splitOnSubAux (pat : List Char) : Nat → List Char → List (List Char)
  | 0, s => [s]
  | fuel + 1, s =>
    match findSub pat s with
    | none => [s]
    | some i => s.take i :: splitOnSubAux pat fuel (s.drop (i + pat.length))

/-- Python `s.split(pat)` for a multi-character separator `pat`. -/
def splitOnSub (pat : List Char) (s : List Char) : List (List Char) :=
  splitOnSubAux pat (s.length + 1) s

/-- Python truthiness of an optional string: `None` and `""` are falsy. -/
def pyTruthy (o : Option String) : Bool :=
  match o with
  | none => false
  | some s => !s.isEmpty

/-- Python `s.startswith(pre)`: `pre` is a prefix of the character
sequence of `s`. -/
def pyStartsWith (s pre : String) : Bool :=
  pre.data.isPrefixOf s.data

/-! ## Repo-files response parser

Embeds `parse_xml_response` from `src/agents/tools/repo_tools.py`
(the identical copy in `src/agents/nodes/data_model_analysis.py` is the
same function).
-/

def filesOpenTag : List Char := "<files>".data

def filesCloseTag : List Char := "</files>".data

def fileOpenMarker : List Char := "<file path=\"".data

def fileCloseTag : List Char := "</file>".data

def quoteGtMarker : List Char := "\">".data

def colonSpace : List Char := ": ".data

/-- One iteration of the content-cleaning loop: strip the line, drop it if
empty, and remove a leading `N: ` line-number marker
(`colon_pos > 0 and line[:colon_pos].strip().isdigit()`). -/
def processLine (line : List Char) : Option (List Char) :=
  let l := pyStrip line
  if l.isEmpty then none
  else
    match findSub colonSpace l with
    | some cp =>
      if 0 < cp && isPyDigits (pyStrip (l.take cp)) then some (l.drop (cp + 2))
      else some l
    | none => some l

/-- `"\n".join(lines)` over the cleaned lines of a file section's content. -/
def processContent (content : List Char) : List Char :=
  List.intercalate "\n".data ((content.splitOn '\n').filterMap processLine)

/-- One iteration of the file-section loop: extract path and content
boundaries; a section without a closing `</file>` is skipped (`none`).
Python's `file_section[: file_section.find(chr(34) ++ ">")]` slice with a
`-1` find result is `file_section[:-1]` (drop the last character), and the
content then starts at index `-1 + 2 = 1`. -/
def parseFileSection (sec : List Char) : Option (List Char × List Char) :=
  let pq := findSub quoteGtMarker sec
  let filePath := match pq with
    | some i => sec.take i
    | none => sec.dropLast
  let contentStart := match pq with
    | some i => i + 2
    | none => 1
  match findSub fileCloseTag sec with
  | none => none
  | some contentEnd =>
    some (filePath, processContent ((sec.drop contentStart).take (contentEnd - contentStart)))

/-- Python dict assignment `d[k] = v`: replace in place if the key exists,
else append (insertion order preserved). -/
def dictInsert (m : List (List Char × List Char)) (k v : List Char) :
    List (List Char × List Char) :=
  if m.any (fun p => p.1 = k) then m.map (fun p => if p.1 = k then (k, v) else p)
  else m ++ [(k, v)]

/-- The section loop of `parse_xml_response`: malformed sections contribute
nothing, well-formed ones are stored under their path. -/
def buildFilesContent (secs : List (List Char)) : List (List Char × List Char) :=
  secs.foldl
    (fun m sec =>
      match parseFileSection sec with
      | some (p, c) => dictInsert m p c
      | none => m)
    []

/-- The file sections extracted from a bundle: slice between the `<files>`
markers, split on the file-open marker, and drop the text before the first
marker (`[1:]`); then run the section loop. Empty when either marker is
missing. -/
def extractedFiles (xml : String) : List (List Char × List Char) :=
  match findSub filesOpenTag xml.data, findSub filesCloseTag xml.data with
  | some fs, some fe =>
    buildFilesContent ((splitOnSub fileOpenMarker ((xml.data.drop fs).take (fe - fs))).drop 1)
  | _, _ => []

/-- `parse_xml_response`: the result mapping, or the wrapped `ValueError`
message (`f"Failed to parse XML response: {e}"`). -/
def parse_xml_response (xml : String) : Except String (List (String × String)) :=
  match findSub filesOpenTag xml.data, findSub filesCloseTag xml.data with
  | some _, some _ =>
    let fc := extractedFiles xml
    if fc.isEmpty then
      .error "Failed to parse XML response: No files could be parsed from the response"
    else
      .ok (fc.map (fun p => (String.mk p.1, String.mk p.2)))
  | _, _ => .error "Failed to parse XML response: Invalid XML format: missing <files> section"

/-- Whether a parse attempt failed. -/
def isParseError {α : Type} (r : Except String α) : Bool :=
  match r with
  | .error _ => true
  | .ok _ => false

/-! ## The `retrieve_files` tool

Embeds `retrieve_files` from `src/agents/tools/repo_tools.py`. The HTTP
interaction with the external repo-files service is a parameter: either the
client raises (network failure) or a response with a status and a body
comes back.
-/

/-- Outcome of the `aiohttp` POST to the repo-files service. -/
inductive HttpCall : Type
  | raises (msg : String)
  | responds (status : Nat) (body : String)

/-- `retrieve_files(repository_url, file_paths)`: the returned dictionary.
The outer `try`/`except` catches every exception, so the function always
returns a dictionary; each failure path carries an `"error"` key. -/
def retrieve_files (apiUrl : Option String) (call : HttpCall) : List (String × String) :=
  if !(pyTruthy apiUrl) then
    [("error", "Error retrieving files: REPOSITORY_INGEST_API_URL is not set in the environment variables")]
  else
    match call with
    | .raises m => [("error", "Error retrieving files: " ++ m)]
    | .responds st body =>
      if st ≠ 200 then [("error", "Repo Files API failed: " ++ body)]
      else
        match parse_xml_response body with
        | .ok m => m
        | .error e => [("error", "Failed to parse API response: " ++ e)]

/-! ## Data model

Embeds `src/models/code_analysis.py` and the MongoDB document shape.
-/

/-- `CodeAnalysisStatus` enum. -/
inductive CodeAnalysisStatus : Type
  | IN_PROGRESS
  | COMPLETED
  | ERROR
deriving DecidableEq

/-- The stored MongoDB document for one analysis (the fields the
collection holds; `CodeAnalysisInDB` exposes the same fields except
`error`, which the update model can write but the read model does not
declare). Timestamps are abstract ticks. -/
structure CodeAnalysisDoc : Type where
  id : String
  repository_url : String
  status : CodeAnalysisStatus
  architecture_documentation : Option String := none
  ingested_repository : Option String := none
  technologies : Option (List String) := none
  data_model_files : Option (List String) := none
  data_model_analysis : Option String := none
  routes_interfaces_files : Option (List String) := none
  routes_interfaces_analysis : Option String := none
  business_logic_files : Option (List String) := none
  business_logic_analysis : Option String := none
  product_requirements : Option String := none
  error : Option String := none
  created_at : Nat := 0
  updated_at : Nat := 0
deriving DecidableEq

/-- `CodeAnalysisUpdate` as it reaches the repository: the repository dumps
it with `model_dump(exclude_unset=True)` and then drops `None` values, so
the net payload contains exactly the fields that were explicitly given a
non-null value.  A field is `none` here when it will not appear in the
`$set` payload — either never assigned (unset, which also drops the
`updated_at` default factory value) or assigned `None`. -/
structure CodeAnalysisUpdate : Type where
  status : Option CodeAnalysisStatus := none
  architecture_documentation : Option String := none
  ingested_repository : Option String := none
  technologies : Option (List String) := none
  data_model_files : Option (List String) := none
  data_model_analysis : Option String := none
  routes_interfaces_files : Option (List String) := none
  routes_interfaces_analysis : Option String := none
  business_logic_files : Option (List String) := none
  business_logic_analysis : Option String := none
  product_requirements : Option String := none
  error : Option String := none
  updated_at : Option Nat := none
deriving DecidableEq

/-- The update payload with no fields. -/
def emptyUpdate : CodeAnalysisUpdate := {}

/-- Whether the filtered `update_data` dictionary is nonempty. -/
def CodeAnalysisUpdate.hasUpdateData (u : CodeAnalysisUpdate) : Bool :=
  u.status.isSome || u.architecture_documentation.isSome ||
  u.ingested_repository.isSome || u.technologies.isSome ||
  u.data_model_files.isSome || u.data_model_analysis.isSome ||
  u.routes_interfaces_files.isSome || u.routes_interfaces_analysis.isSome ||
  u.business_logic_files.isSome || u.business_logic_analysis.isSome ||
  u.product_requirements.isSome || u.error.isSome || u.updated_at.isSome

/-- MongoDB `update_one({_id: ...}, {$set: update_data})`: each field named
in the payload is replaced, every other stored field is untouched. -/
def applySet (d : CodeAnalysisDoc) (u : CodeAnalysisUpdate) : CodeAnalysisDoc :=
  { d with
    status := u.status.getD d.status
    architecture_documentation := u.architecture_documentation.orElse (fun _ => d.architecture_documentation)
    ingested_repository := u.ingested_repository.orElse (fun _ => d.ingested_repository)
    technologies := u.technologies.orElse (fun _ => d.technologies)
    data_model_files := u.data_model_files.orElse (fun _ => d.data_model_files)
    data_model_analysis := u.data_model_analysis.orElse (fun _ => d.data_model_analysis)
    routes_interfaces_files := u.routes_interfaces_files.orElse (fun _ => d.routes_interfaces_files)
    routes_interfaces_analysis := u.routes_interfaces_analysis.orElse (fun _ => d.routes_interfaces_analysis)
    business_logic_files := u.business_logic_files.orElse (fun _ => d.business_logic_files)
    business_logic_analysis := u.business_logic_analysis.orElse (fun _ => d.business_logic_analysis)
    product_requirements := u.product_requirements.orElse (fun _ => d.product_requirements)
    error := u.error.orElse (fun _ => d.error)
    updated_at := u.updated_at.getD d.updated_at }

namespace CodeAnalysisRepository

/-- `CodeAnalysisRepository.update` on a found document: if the filtered
payload is empty it is a pure no-op read, otherwise the `$set` is applied. -/
def update (d : CodeAnalysisDoc) (u : CodeAnalysisUpdate) : CodeAnalysisDoc :=
  if u.hasUpdateData then applySet d u else d

/-- A well-formed BSON ObjectId string: 24 hexadecimal characters
(the validity rule of the external `bson` library that
`ObjectId(analysis_id)` enforces before the collection is consulted). -/
def isValidObjectId (s : String) : Bool :=
  s.length == 24 &&
    s.data.all (fun c => c.isDigit || ('a' ≤ c && c ≤ 'f') || ('A' ≤ c && c ≤ 'F'))

/-- Outcome of `CodeAnalysisRepository.get`: the document, `None`, or the
re-raised `InvalidId` exception. -/
inductive GetOutcome : Type
  | found (d : CodeAnalysisDoc)
  | missing
  | invalidId
deriving DecidableEq

/-- `CodeAnalysisRepository.get`: `ObjectId(analysis_id)` raises
`InvalidId` before the collection is consulted; otherwise the lookup
returns the document or `None`. -/
def get (store : List (String × CodeAnalysisDoc)) (analysis_id : String) : GetOutcome :=
  if isValidObjectId analysis_id then
    match store.lookup analysis_id with
    | some d => .found d
    | none => .missing
  else .invalidId

end CodeAnalysisRepository

/-! ## Field names

The node factories assign fields of `CodeAnalysisUpdate` dynamically by
name (`setattr(update_data, field_name, value)`); the enumerations below
are the names used, split by field type.
-/

/-- The optional-text fields of the update model. -/
inductive TextField : Type
  | architecture_documentation
  | ingested_repository
  | data_model_analysis
  | routes_interfaces_analysis
  | business_logic_analysis
  | product_requirements
deriving DecidableEq

/-- The optional string-list fields of the update model. -/
inductive ListField : Type
  | technologies
  | data_model_files
  | routes_interfaces_files
  | business_logic_files
deriving DecidableEq

/-- A field name of `CodeAnalysisUpdate` (`CodeAnalysisUpdate.model_fields`). -/
inductive UpdField : Type
  | status
  | error
  | updated_at
  | text (f : TextField)
  | lst (f : ListField)
deriving DecidableEq

/-- The Python name of a list field (used in factory error messages). -/
def ListField.name : ListField → String
  | .technologies => "technologies"
  | .data_model_files => "data_model_files"
  | .routes_interfaces_files => "routes_interfaces_files"
  | .business_logic_files => "business_logic_files"

def CodeAnalysisDoc.getText (d : CodeAnalysisDoc) : TextField → Option String
  | .architecture_documentation => d.architecture_documentation
  | .ingested_repository => d.ingested_repository
  | .data_model_analysis => d.data_model_analysis
  | .routes_interfaces_analysis => d.routes_interfaces_analysis
  | .business_logic_analysis => d.business_logic_analysis
  | .product_requirements => d.product_requirements

def CodeAnalysisDoc.getList (d : CodeAnalysisDoc) : ListField → Option (List String)
  | .technologies => d.technologies
  | .data_model_files => d.data_model_files
  | .routes_interfaces_files => d.routes_interfaces_files
  | .business_logic_files => d.business_logic_files

def CodeAnalysisUpdate.getText (u : CodeAnalysisUpdate) : TextField → Option String
  | .architecture_documentation => u.architecture_documentation
  | .ingested_repository => u.ingested_repository
  | .data_model_analysis => u.data_model_analysis
  | .routes_interfaces_analysis => u.routes_interfaces_analysis
  | .business_logic_analysis => u.business_logic_analysis
  | .product_requirements => u.product_requirements

def CodeAnalysisUpdate.setText (u : CodeAnalysisUpdate) (f : TextField) (v : Option String) :
    CodeAnalysisUpdate :=
  match f with
  | .architecture_documentation => { u with architecture_documentation := v }
  | .ingested_repository => { u with ingested_repository := v }
  | .data_model_analysis => { u with data_model_analysis := v }
  | .routes_interfaces_analysis => { u with routes_interfaces_analysis := v }
  | .business_logic_analysis => { u with business_logic_analysis := v }
  | .product_requirements => { u with product_requirements := v }

def CodeAnalysisUpdate.getList (u : CodeAnalysisUpdate) : ListField → Option (List String)
  | .technologies => u.technologies
  | .data_model_files => u.data_model_files
  | .routes_interfaces_files => u.routes_interfaces_files
  | .business_logic_files => u.business_logic_files

def CodeAnalysisUpdate.setList (u : CodeAnalysisUpdate) (f : ListField) (v : Option (List String)) :
    CodeAnalysisUpdate :=
  match f with
  | .technologies => { u with technologies := v }
  | .data_model_files => { u with data_model_files := v }
  | .routes_interfaces_files => { u with routes_interfaces_files := v }
  | .business_logic_files => { u with business_logic_files := v }

/-- A field value, for stating field-indexed properties uniformly. -/
inductive FieldVal : Type
  | vStatus (v : CodeAnalysisStatus)
  | vText (v : String)
  | vList (v : List String)
  | vTime (v : Nat)
deriving DecidableEq

/-- The value a stored document holds at a named field
(`none` when the optional field is null). -/
def CodeAnalysisDoc.getF (d : CodeAnalysisDoc) : UpdField → Option FieldVal
  | .status => some (.vStatus d.status)
  | .error => d.error.map .vText
  | .updated_at => some (.vTime d.updated_at)
  | .text f => (d.getText f).map .vText
  | .lst f => (d.getList f).map .vList

/-- The value an update payload contributes at a named field
(`none` when the field is absent from the `$set` payload). -/
def CodeAnalysisUpdate.getF (u : CodeAnalysisUpdate) : UpdField → Option FieldVal
  | .status => u.status.map .vStatus
  | .error => u.error.map .vText
  | .updated_at => u.updated_at.map .vTime
  | .text f => (u.getText f).map .vText
  | .lst f => (u.getList f).map .vList

/-! ## Node-factory database writes

Embeds the `_update_db_with_result` / `_update_db_on_error` helpers of
`src/agents/nodes/factory/analysis_node_factory.py`,
`src/agents/nodes/identification_node_factory.py` and
`src/agents/nodes/product_requirements.py`, and the inline update
construction of the bespoke data-model nodes.
-/

/-- The carry-forward loop the factory helpers run over
`CodeAnalysisUpdate.model_fields`: every field not in the skip list whose
value on `current_doc` is non-null is copied into the payload.
`current_doc` is a `CodeAnalysisInDB`, which has no `error` attribute
(`hasattr` is false), so `error` is never carried forward. -/
def carryForward (u : CodeAnalysisUpdate) (cur : CodeAnalysisDoc) (skip : List UpdField) :
    CodeAnalysisUpdate :=
  { status := if UpdField.status ∈ skip then u.status else some cur.status
    architecture_documentation :=
      if UpdField.text .architecture_documentation ∈ skip then u.architecture_documentation
      else cur.architecture_documentation.orElse (fun _ => u.architecture_documentation)
    ingested_repository :=
      if UpdField.text .ingested_repository ∈ skip then u.ingested_repository
      else cur.ingested_repository.orElse (fun _ => u.ingested_repository)
    technologies :=
      if UpdField.lst .technologies ∈ skip then u.technologies
      else cur.technologies.orElse (fun _ => u.technologies)
    data_model_files :=
      if UpdField.lst .data_model_files ∈ skip then u.data_model_files
      else cur.data_model_files.orElse (fun _ => u.data_model_files)
    data_model_analysis :=
      if UpdField.text .data_model_analysis ∈ skip then u.data_model_analysis
      else cur.data_model_analysis.orElse (fun _ => u.data_model_analysis)
    routes_interfaces_files :=
      if UpdField.lst .routes_interfaces_files ∈ skip then u.routes_interfaces_files
      else cur.routes_interfaces_files.orElse (fun _ => u.routes_interfaces_files)
    routes_interfaces_analysis :=
      if UpdField.text .routes_interfaces_analysis ∈ skip then u.routes_interfaces_analysis
      else cur.routes_interfaces_analysis.orElse (fun _ => u.routes_interfaces_analysis)
    business_logic_files :=
      if UpdField.lst .business_logic_files ∈ skip then u.business_logic_files
      else cur.business_logic_files.orElse (fun _ => u.business_logic_files)
    business_logic_analysis :=
      if UpdField.text .business_logic_analysis ∈ skip then u.business_logic_analysis
      else cur.business_logic_analysis.orElse (fun _ => u.business_logic_analysis)
    product_requirements :=
      if UpdField.text .product_requirements ∈ skip then u.product_requirements
      else cur.product_requirements.orElse (fun _ => u.product_requirements)
    error := u.error
    updated_at := if UpdField.updated_at ∈ skip then u.updated_at else some cur.updated_at }

/-- `_update_db_on_error` (identical in the analysis factory, the
identification factory and the product-requirements node): status `ERROR`,
the error message and a fresh timestamp, carrying forward all other
non-null fields of the current document. -/
def update_db_on_error (cur : Option CodeAnalysisDoc) (error_msg : String) (now : Nat) :
    CodeAnalysisUpdate :=
  let u : CodeAnalysisUpdate :=
    { emptyUpdate with status := some .ERROR, error := some error_msg, updated_at := some now }
  match cur with
  | some c => carryForward u c [.updated_at, .status, .error]
  | none => u

/-- `_update_db_with_result` of the identification factory: the computed
file list and a fresh timestamp (no status), carrying forward all other
non-null fields — including the current status. -/
def ident_update_db_with_result (cur : Option CodeAnalysisDoc) (field : ListField)
    (result : List String) (now : Nat) : CodeAnalysisUpdate :=
  let u := CodeAnalysisUpdate.setList { emptyUpdate with updated_at := some now } field (some result)
  match cur with
  | some c => carryForward u c [.updated_at, .lst field]
  | none => u

/-- `_update_db_with_result` of the analysis factory (and the identical
copy in the product-requirements node): status `COMPLETED`, the produced
text and a fresh timestamp, carrying forward all other non-null fields. -/
def analysis_update_db_with_result (cur : Option CodeAnalysisDoc) (field : TextField)
    (result : String) (now : Nat) : CodeAnalysisUpdate :=
  let u := CodeAnalysisUpdate.setText
    { emptyUpdate with status := some .COMPLETED, updated_at := some now } field (some result)
  match cur with
  | some c => carryForward u c [.updated_at, .status, .text field]
  | none => u

/-- The inline error update of the bespoke data-model nodes
(`data_model_identification.py` short-circuit and failure paths,
`data_model_analysis.py` short-circuit and failure paths): status `ERROR`,
the message, a fresh timestamp, and explicit carry-forward of only the two
data-model fields. -/
def dm_node_error_update (cur : Option CodeAnalysisDoc) (error_msg : String) (now : Nat) :
    CodeAnalysisUpdate :=
  { emptyUpdate with
    status := some .ERROR
    error := some error_msg
    updated_at := some now
    data_model_files := cur.bind (fun c => c.data_model_files)
    data_model_analysis := cur.bind (fun c => c.data_model_analysis) }

/-- The inline success update of `data_model_identification.py`: the file
list, a fresh timestamp, and explicit carry-forward of
`data_model_analysis` and the current status. -/
def dm_ident_success_update (cur : Option CodeAnalysisDoc) (files : List String) (now : Nat) :
    CodeAnalysisUpdate :=
  { emptyUpdate with
    data_model_files := some files
    updated_at := some now
    data_model_analysis := cur.bind (fun c => c.data_model_analysis)
    status := cur.map (fun c => c.status) }

/-- The inline success update of `data_model_analysis.py`: the analysis
text, status `COMPLETED`, a fresh timestamp, and explicit carry-forward of
`data_model_files`. -/
def dm_analysis_success_update (cur : Option CodeAnalysisDoc) (result : String) (now : Nat) :
    CodeAnalysisUpdate :=
  { emptyUpdate with
    data_model_analysis := some result
    status := some .COMPLETED
    updated_at := some now
    data_model_files := cur.bind (fun c => c.data_model_files) }

/-! ## The agent layer and `_handle_analysis`

Embeds `run_analysis_agent` from
`src/agents/react_agents/analysis_agent.py` and the result handling of
`_handle_analysis` from `src/agents/nodes/factory/analysis_node_factory.py`.
The ReAct conversation itself is external; its outcome is a parameter.
-/

/-- Outcome of the ReAct agent conversation: a final AI message, no AI
message in the response, or a raised exception. -/
inductive AgentOutcome : Type
  | finalMessage (content : String)
  | noAIMessage
  | raises (msg : String)

/-- `run_analysis_agent`: returns the final message content, or an
`"Error..."` string on either failure path — it never raises. -/
def run_analysis_agent (outcome : AgentOutcome) : String :=
  match outcome with
  | .finalMessage s => s
  | .noAIMessage => "Error: No response from agent"
  | .raises m => "Error in analysis: " ++ m

/-- The partial state a stage returns to the graph driver: only an error
field, or only the produced field. -/
inductive StagePartial : Type
  | errorOnly (msg : String)
  | fieldValue (f : TextField) (v : String)
deriving DecidableEq

/-- What a stage did with an agent result: the partial state it returns
and the database write it performs (absent when the state has no
`analysis_id`). -/
structure AnalysisHandling : Type where
  statePartial : StagePartial
  dbUpdate : Option CodeAnalysisUpdate

/-- The result handling of `_handle_analysis` after `run_analysis_agent`
returns `analysis_result`: a text beginning with `"Error"` raises
`ValueError(analysis_result)`, which the surrounding `except` turns into
an error update (`f"{analysis_type} analysis failed: {e}"`) without
storing the text; any other text is stored verbatim in the output field
with status `COMPLETED`. -/
def handle_agent_result (cur : Option CodeAnalysisDoc) (analysis_id : Option String)
    (analysis_type : String) (output_field : TextField) (analysis_result : String)
    (now : Nat) : AnalysisHandling :=
  if pyStartsWith analysis_result "Error" then
    let error_msg := analysis_type ++ " analysis failed: " ++ analysis_result
    { statePartial := .errorOnly error_msg
      dbUpdate := if pyTruthy analysis_id then some (update_db_on_error cur error_msg now) else none }
  else
    { statePartial := .fieldValue output_field analysis_result
      dbUpdate :=
        if pyTruthy analysis_id then
          some (analysis_update_db_with_result cur output_field analysis_result now)
        else none }

/-! ## The product-requirements synthesis node

Embeds `product_requirements_node` from
`src/agents/nodes/product_requirements.py`. The single model call is a
parameter (`Except` for a raised exception).
-/

/-- A run of the product-requirements node: whether the model was invoked,
the partial state returned, and the database write performed. -/
structure PRNodeRun : Type where
  modelCalled : Bool
  statePartial : StagePartial
  dbUpdate : Option CodeAnalysisUpdate

def product_requirements_node (cur : Option CodeAnalysisDoc) (analysis_id : Option String)
    (dm ri bl : Option String) (now : Nat) (modelOutcome : Except String String) : PRNodeRun :=
  if !(pyTruthy dm) || !(pyTruthy ri) || !(pyTruthy bl) then
    let error_msg := "Missing one or more required analyses for product requirements generation"
    { modelCalled := false
      statePartial := .errorOnly error_msg
      dbUpdate := if pyTruthy analysis_id then some (update_db_on_error cur error_msg now) else none }
  else
    match modelOutcome with
    | .ok product_requirements =>
      { modelCalled := true
        statePartial := .fieldValue .product_requirements product_requirements
        dbUpdate :=
          if pyTruthy analysis_id then
            some (analysis_update_db_with_result cur .product_requirements product_requirements now)
          else none }
    | .error e =>
      let error_msg := "Product requirements generation failed: " ++ e
      { modelCalled := true
        statePartial := .errorOnly error_msg
        dbUpdate := if pyTruthy analysis_id then some (update_db_on_error cur error_msg now) else none }

/-! ## HTTP surface

Embeds `get_code_analysis` from `src/api/v1/code_analysis.py`.
-/

/-- `CodeAnalysisResponse`: every field the response model declares;
fields not passed by the endpoint default to null. -/
structure CodeAnalysisResponse : Type where
  id : String
  repository_url : String
  status : CodeAnalysisStatus
  architecture_documentation : Option String := none
  ingested_repository : Option String := none
  technologies : Option (List String) := none
  data_model_files : Option (List String) := none
  data_model_analysis : Option String := none
  routes_interfaces_files : Option (List String) := none
  routes_interfaces_analysis : Option String := none
  business_logic_files : Option (List String) := none
  business_logic_analysis : Option String := none
  product_requirements : Option String := none
  created_at : Nat
  updated_at : Nat
deriving DecidableEq

/-- The `CodeAnalysisResponse(...)` construction at
`src/api/v1/code_analysis.py` lines 91-102: exactly these keyword
arguments are passed; all other response fields keep their `None`
default. -/
def responseProjection (d : CodeAnalysisDoc) : CodeAnalysisResponse :=
  { id := d.id
    repository_url := d.repository_url
    status := d.status
    architecture_documentation := d.architecture_documentation
    ingested_repository := d.ingested_repository
    technologies := d.technologies
    data_model_files := d.data_model_files
    data_model_analysis := d.data_model_analysis
    created_at := d.created_at
    updated_at := d.updated_at }

/-- An HTTP result of the GET-by-id endpoint. -/
inductive ApiResult : Type
  | ok (resp : CodeAnalysisResponse)
  | notFound
  | serverError
deriving DecidableEq

/-- `GET /api/v1/code-analysis/{id}`: a missing document gives 404, a
raised `InvalidId` is caught and mapped to 404, a found document is
projected into the response model. -/
def get_code_analysis (store : List (String × CodeAnalysisDoc)) (analysis_id : String) :
    ApiResult :=
  match CodeAnalysisRepository.get store analysis_id with
  | .found d => .ok (responseProjection d)
  | .missing => .notFound
  | .invalidId => .notFound

/-! ## The system's update writes

Every construction of a `CodeAnalysisUpdate` in the repository, one
constructor per call site (the data the site computes is a parameter).
This enumeration is exhaustive over the source: `repository_ingest.py`,
`data_model_identification.py`, `data_model_analysis.py`,
`identification_node_factory.py`, `analysis_node_factory.py`,
`product_requirements.py`, `architecture_documentation.py` (a node not
wired into the graph), `code_analysis_graph.py` and
`services/code_analysis.py`.
-/

inductive SystemWrite : Type
  | ingestSuccess (ingestedRepository : Option String) (technologies : List String)
  | ingestFailure
  | dmNodeError (error_msg : String) (now : Nat)
  | dmIdentSuccess (files : List String) (now : Nat)
  | dmAnalysisSuccess (result : String) (now : Nat)
  | identFactorySuccess (field : ListField) (files : List String) (now : Nat)
  | factoryError (error_msg : String) (now : Nat)
  | analysisFactorySuccess (field : TextField) (result : String) (now : Nat)
  | archDocSuccess (result : String)
  | archDocFailure
  | driverError (error_msg : String)
  | driverCompleted
  | serviceError

/-- The payload a system write sends to `CodeAnalysisRepository.update`,
given the `current_doc` the writing site read back (if it reads one). -/
def SystemWrite.payload (w : SystemWrite) (cur : Option CodeAnalysisDoc) : CodeAnalysisUpdate :=
  match w with
  | .ingestSuccess repo techs =>
    { emptyUpdate with ingested_repository := repo, technologies := some techs }
  | .ingestFailure => { emptyUpdate with status := some .ERROR }
  | .dmNodeError msg now => dm_node_error_update cur msg now
  | .dmIdentSuccess files now => dm_ident_success_update cur files now
  | .dmAnalysisSuccess result now => dm_analysis_success_update cur result now
  | .identFactorySuccess f files now => ident_update_db_with_result cur f files now
  | .factoryError msg now => update_db_on_error cur msg now
  | .analysisFactorySuccess f result now => analysis_update_db_with_result cur f result now
  | .archDocSuccess result =>
    { emptyUpdate with architecture_documentation := some result, status := some .COMPLETED }
  | .archDocFailure => { emptyUpdate with status := some .ERROR }
  | .driverError msg => { emptyUpdate with status := some .ERROR, error := some msg }
  | .driverCompleted => { emptyUpdate with status := some .COMPLETED }
  | .serviceError => { emptyUpdate with status := some .ERROR }

/-! ## The workflow run

Embeds `run_code_analysis_workflow` from `src/agents/code_analysis_graph.py`
together with every node it schedules. The graph runs the three
identify→analyze branches concurrently over disjoint state fields; the
embedding sequentialises the supersteps in the registration order
(ingest; the three identification nodes; the three analysis nodes;
synthesis; the driver's final status write). Each node threads the graph
state and the stored document, and reports whether it attempted its model
interaction.
-/

/-- Python truthiness of an optional list: `None` and `[]` are falsy. -/
def pyTruthyList (o : Option (List String)) : Bool :=
  match o with
  | none => false
  | some l => !l.isEmpty

/-- The LangGraph shared state (`GraphState` TypedDict). -/
structure GState : Type where
  repository_url : String
  status : CodeAnalysisStatus := .IN_PROGRESS
  ingested_repository : Option String := none
  technologies : Option (List String) := none
  data_model_files : Option (List String) := none
  data_model_analysis : Option String := none
  routes_interfaces_files : Option (List String) := none
  routes_interfaces_analysis : Option String := none
  business_logic_files : Option (List String) := none
  business_logic_analysis : Option String := none
  product_requirements : Option String := none
  architecture_documentation : Option String := none
  analysis_id : Option String := none
  error : Option String := none

def GState.getList (st : GState) : ListField → Option (List String)
  | .technologies => st.technologies
  | .data_model_files => st.data_model_files
  | .routes_interfaces_files => st.routes_interfaces_files
  | .business_logic_files => st.business_logic_files

def GState.setList (st : GState) (f : ListField) (v : List String) : GState :=
  match f with
  | .technologies => { st with technologies := some v }
  | .data_model_files => { st with data_model_files := some v }
  | .routes_interfaces_files => { st with routes_interfaces_files := some v }
  | .business_logic_files => { st with business_logic_files := some v }

def GState.setText (st : GState) (f : TextField) (v : String) : GState :=
  match f with
  | .architecture_documentation => { st with architecture_documentation := some v }
  | .ingested_repository => { st with ingested_repository := some v }
  | .data_model_analysis => { st with data_model_analysis := some v }
  | .routes_interfaces_analysis => { st with routes_interfaces_analysis := some v }
  | .business_logic_analysis => { st with business_logic_analysis := some v }
  | .product_requirements => { st with product_requirements := some v }

/-- `repository_ingest_node`: on success, state and document get the
ingested text and technologies; on any failure (`except Exception`) the
document gets only `{status: ERROR}` and the state only the error
message. -/
def repository_ingest_node (outcome : Except String (Option String × List String))
    (st : GState) (db : CodeAnalysisDoc) : GState × CodeAnalysisDoc :=
  match outcome with
  | .ok (ingested, techs) =>
    let db1 := if pyTruthy st.analysis_id then
        CodeAnalysisRepository.update db
          { emptyUpdate with ingested_repository := ingested, technologies := some techs }
      else db
    ({ st with ingested_repository := ingested, technologies := some techs }, db1)
  | .error e =>
    let db1 := if pyTruthy st.analysis_id then
        CodeAnalysisRepository.update db { emptyUpdate with status := some .ERROR }
      else db
    ({ st with error := some ("Repository ingest failed: " ++ e) }, db1)

/-- The bespoke `data_model_identification_node`. The returned flag
records whether the node attempted its structured model call (false only
on the missing-input short-circuit). -/
def data_model_identification_node (outcome : Except String (List String)) (now : Nat)
    (st : GState) (db : CodeAnalysisDoc) : GState × CodeAnalysisDoc × Bool :=
  if !(pyTruthy st.ingested_repository) then
    let err := "No ingested repository data available for data model identification"
    let st1 := { st with status := .ERROR, error := some err }
    let db1 := if pyTruthy st.analysis_id then
        CodeAnalysisRepository.update db (dm_node_error_update (some db) err now)
      else db
    (st1, db1, false)
  else
    match outcome with
    | .ok files =>
      let st1 := { st with data_model_files := some files }
      let db1 := if pyTruthy st.analysis_id then
          CodeAnalysisRepository.update db (dm_ident_success_update (some db) files now)
        else db
      (st1, db1, true)
    | .error e =>
      let err := "Data model identification failed: " ++ e
      let st1 := { st with status := .ERROR, error := some err }
      let db1 := if pyTruthy st.analysis_id then
          CodeAnalysisRepository.update db (dm_node_error_update (some db) err now)
        else db
      (st1, db1, true)

/-- A factory-built `identification_node`
(`identification_node_factory.py`), instantiated for a concern field. -/
def identification_node (field : ListField) (outcome : Except String (List String))
    (now : Nat) (st : GState) (db : CodeAnalysisDoc) : GState × CodeAnalysisDoc × Bool :=
  if !(pyTruthy st.ingested_repository) then
    let err := "No ingested_repository data available for " ++ field.name
    let st1 := { st with status := .ERROR, error := some err }
    let db1 := if pyTruthy st.analysis_id then
        CodeAnalysisRepository.update db (update_db_on_error (some db) err now)
      else db
    (st1, db1, false)
  else
    match outcome with
    | .ok files =>
      let st1 := st.setList field files
      let db1 := if pyTruthy st.analysis_id then
          CodeAnalysisRepository.update db (ident_update_db_with_result (some db) field files now)
        else db
      (st1, db1, true)
    | .error e =>
      let err := field.name ++ " failed: " ++ e
      let st1 := { st with status := .ERROR, error := some err }
      let db1 := if pyTruthy st.analysis_id then
          CodeAnalysisRepository.update db (update_db_on_error (some db) err now)
        else db
      (st1, db1, true)

/-- The `try` body of the bespoke `data_model_analysis_node`: config
check, repo-files HTTP call, response parse, then the model call. Returns
the raised/returned outcome and whether the model call was reached. -/
def dm_analysis_attempt (apiUrl : Option String) (filesCall : HttpCall)
    (modelOutcome : Except String String) : Except String String × Bool :=
  if !(pyTruthy apiUrl) then
    (.error "REPOSITORY_INGEST_API_URL is not set in the environment variables", false)
  else
    match filesCall with
    | .raises m => (.error m, false)
    | .responds stc body =>
      if stc ≠ 200 then (.error ("Repo Files API failed: " ++ body), false)
      else
        match parse_xml_response body with
        | .error e => (.error e, false)
        | .ok _ =>
          match modelOutcome with
          | .ok txt => (.ok txt, true)
          | .error e => (.error e, true)

/-- The bespoke `data_model_analysis_node`. -/
def data_model_analysis_node (apiUrl : Option String) (filesCall : HttpCall)
    (modelOutcome : Except String String) (now : Nat) (st : GState) (db : CodeAnalysisDoc) :
    GState × CodeAnalysisDoc × Bool :=
  if !(pyTruthyList st.data_model_files) then
    let err := "No data model files identified for analysis"
    let st1 := { st with status := .ERROR, error := some err }
    let db1 := if pyTruthy st.analysis_id then
        CodeAnalysisRepository.update db (dm_node_error_update (some db) err now)
      else db
    (st1, db1, false)
  else
    match dm_analysis_attempt apiUrl filesCall modelOutcome with
    | (.ok result, called) =>
      let st1 := { st with data_model_analysis := some result, status := .COMPLETED }
      let db1 := if pyTruthy st.analysis_id then
          CodeAnalysisRepository.update db (dm_analysis_success_update (some db) result now)
        else db
      (st1, db1, called)
    | (.error e, called) =>
      let err := "Data model analysis failed: " ++ e
      let st1 := { st with status := .ERROR, error := some err }
      let db1 := if pyTruthy st.analysis_id then
          CodeAnalysisRepository.update db (dm_node_error_update (some db) err now)
        else db
      (st1, db1, called)

/-- A factory-built `analysis_node` (`analysis_node_factory.py` /
`_handle_analysis`). `agent = none` models the module-level agent
initialisation having failed; `_handle_analysis` then raises
`ValueError` before its `try` block, so the exception escapes into the
graph driver (the `Except.error` result). -/
def analysis_node (agent : Option AgentOutcome) (analysis_type : String)
    (input_field : ListField) (output_field : TextField) (now : Nat)
    (st : GState) (db : CodeAnalysisDoc) :
    Except String (GState × CodeAnalysisDoc × Bool) :=
  match agent with
  | none => .error ("No agent available for " ++ analysis_type ++ " analysis")
  | some agentOutcome =>
    if !(pyTruthyList (st.getList input_field)) then
      let err := "No " ++ input_field.name ++ " data available for " ++ analysis_type ++ " analysis"
      let db1 := if pyTruthy st.analysis_id then
          CodeAnalysisRepository.update db (update_db_on_error (some db) err now)
        else db
      .ok ({ st with error := some err }, db1, false)
    else
      let analysis_result := run_analysis_agent agentOutcome
      let h := handle_agent_result (some db) st.analysis_id analysis_type output_field
        analysis_result now
      let db1 := match h.dbUpdate with
        | some u => CodeAnalysisRepository.update db u
        | none => db
      let st1 := match h.statePartial with
        | .errorOnly msg => { st with error := some msg }
        | .fieldValue f v => st.setText f v
      .ok (st1, db1, true)

/-- The driver's post-run status write (`run_code_analysis_workflow`
lines 141-161): a truthy error in the final state forces `{status: ERROR,
error}`, otherwise a truthy `product_requirements` forces
`{status: COMPLETED}`. -/
def driver_finalize (st : GState) (db : CodeAnalysisDoc) : CodeAnalysisDoc :=
  if pyTruthy st.error then
    CodeAnalysisRepository.update db { emptyUpdate with status := some .ERROR, error := st.error }
  else if pyTruthy st.product_requirements then
    CodeAnalysisRepository.update db { emptyUpdate with status := some .COMPLETED }
  else db

/-- The driver's `except` handler: an exception escaping the graph makes
it write `{status: ERROR, error: str(e)}` (and re-raise). -/
def driver_abort (e : String) (db : CodeAnalysisDoc) : CodeAnalysisDoc :=
  CodeAnalysisRepository.update db { emptyUpdate with status := some .ERROR, error := some e }

/-- All external outcomes of one workflow run. -/
structure PipelineOutcomes : Type where
  ingest : Except String (Option String × List String)
  identDM : Except String (List String)
  identRI : Except String (List String)
  identBL : Except String (List String)
  dmApiUrl : Option String
  dmFilesCall : HttpCall
  dmModel : Except String String
  agentRI : Option AgentOutcome
  agentBL : Option AgentOutcome
  synth : Except String String
  now : Nat

/-- The observable result of one workflow run: the stored document, which
identification nodes attempted their model call, and the final graph
state (absent when the graph raised and the driver aborted). -/
structure PipelineResult : Type where
  db : CodeAnalysisDoc
  identDMAttempted : Bool
  identRIAttempted : Bool
  identBLAttempted : Bool
  finalState : Option GState

/-- `run_code_analysis_workflow`: the initial state carries the repository
URL, the analysis id and status `IN_PROGRESS`; the supersteps run in
registration order and the driver finalises the stored status. -/
def run_code_analysis_workflow (o : PipelineOutcomes) (repository_url analysis_id : String)
    (db0 : CodeAnalysisDoc) : PipelineResult :=
  let st0 : GState :=
    { repository_url := repository_url, analysis_id := some analysis_id, status := .IN_PROGRESS }
  let r1 := repository_ingest_node o.ingest st0 db0
  let r2 := data_model_identification_node o.identDM o.now r1.1 r1.2
  let r3 := identification_node .routes_interfaces_files o.identRI o.now r2.1 r2.2.1
  let r4 := identification_node .business_logic_files o.identBL o.now r3.1 r3.2.1
  let r5 := data_model_analysis_node o.dmApiUrl o.dmFilesCall o.dmModel o.now r4.1 r4.2.1
  match analysis_node o.agentRI "Routes and Interfaces" .routes_interfaces_files
      .routes_interfaces_analysis o.now r5.1 r5.2.1 with
  | .error e => ⟨driver_abort e r5.2.1, r2.2.2, r3.2.2, r4.2.2, none⟩
  | .ok r6 =>
    match analysis_node o.agentBL "Business Logic" .business_logic_files
        .business_logic_analysis o.now r6.1 r6.2.1 with
    | .error e => ⟨driver_abort e r6.2.1, r2.2.2, r3.2.2, r4.2.2, none⟩
    | .ok r7 =>
      let st7 := r7.1
      let db7 := r7.2.1
      let pr := product_requirements_node (some db7) st7.analysis_id st7.data_model_analysis
        st7.routes_interfaces_analysis st7.business_logic_analysis o.now o.synth
      let db8 := match pr.dbUpdate with
        | some u => CodeAnalysisRepository.update db7 u
        | none => db7
      let st8 := match pr.statePartial with
        | .errorOnly m => { st7 with error := some m }
        | .fieldValue _ v => { st7 with product_requirements := some v }
      ⟨driver_finalize st8 db8, r2.2.2, r3.2.2, r4.2.2, some st8⟩

/-! ## Concrete sample values used by witnesses and counterexamples -/

/-- An update payload carrying only `{status: COMPLETED}`. -/
def statusOnlyCompleted : CodeAnalysisUpdate :=
  { emptyUpdate with status := some .COMPLETED }

/-- A well-formed 24-hex-character identifier. -/
def validId : String := "0123456789abcdef01234567"

/-- A sample stored document with a data-model analysis already set. -/
def sampleDoc : CodeAnalysisDoc :=
  { id := validId
    repository_url := "https://github.com/org/repo"
    status := .IN_PROGRESS
    data_model_analysis := some "# Data model\nentities"
    created_at := 3
    updated_at := 5 }

/-- A sample stored document in the terminal `ERROR` state. -/
def erroredDoc : CodeAnalysisDoc :=
  { id := validId
    repository_url := "https://github.com/org/repo"
    status := .ERROR
    error := some "business_logic_files failed: boom"
    created_at := 3
    updated_at := 9 }

/-- A sample stored document with every concern field populated. -/
def fullDoc : CodeAnalysisDoc :=
  { id := validId
    repository_url := "https://github.com/org/repo"
    status := .COMPLETED
    architecture_documentation := some "arch"
    ingested_repository := some "tree"
    technologies := some ["python"]
    data_model_files := some ["m.py"]
    data_model_analysis := some "DMA"
    routes_interfaces_files := some ["r.py"]
    routes_interfaces_analysis := some "RIA"
    business_logic_files := some ["b.py"]
    business_logic_analysis := some "BLA"
    product_requirements := some "PRD"
    created_at := 3
    updated_at := 20 }

/-- A repo-files bundle with two well-formed, line-numbered files. -/
def twoFileBundle : String :=
  "<files>\n<file path=\"src/a.py\">\n1: def a():\n2:     return 1\n</file>\n<file path=\"b.md\">\n1: # Title\n2: text\n</file>\n</files>"

/-- A bundle whose middle file section is malformed (no closing tag
before the next section), so it must be skipped while the other two
files parse. -/
def skipSectionBundle : String :=
  "<files>\n<file path=\"src/a.py\">\n1: x = 1\n</file>\n<file path=\"bad.txt\">\nbroken\n<file path=\"c.md\">\nplain\n</file>\n</files>"

/-- A bundle without the `<files>` markers. -/
def noMarkersBundle : String := "no markers here"

/-! # Theorems -/

/-- `$set` leaves every field absent from the payload untouched. -/
theorem applySet_getF_frame (d : CodeAnalysisDoc) (u : CodeAnalysisUpdate) (f : UpdField)
    (h : u.getF f = none) : (applySet d u).getF f = d.getF f := by
  rcases f with _ | _ | _ | tf | lf
  · cases hs : u.status with
    | none => simp [CodeAnalysisDoc.getF, applySet, hs]
    | some v => rw [CodeAnalysisUpdate.getF, hs] at h; simp at h
  · cases he : u.error with
    | none => simp [CodeAnalysisDoc.getF, applySet, he, Option.orElse]
    | some v => rw [CodeAnalysisUpdate.getF, he] at h; simp at h
  · cases ht : u.updated_at with
    | none => simp [CodeAnalysisDoc.getF, applySet, ht]
    | some v => rw [CodeAnalysisUpdate.getF, ht] at h; simp at h
  · cases tf <;>
      simp_all [CodeAnalysisUpdate.getF, CodeAnalysisUpdate.getText, CodeAnalysisDoc.getF,
        CodeAnalysisDoc.getText, applySet, Option.orElse]
  · cases lf <;>
      simp_all [CodeAnalysisUpdate.getF, CodeAnalysisUpdate.getList, CodeAnalysisDoc.getF,
        CodeAnalysisDoc.getList, applySet, Option.orElse]

/-- C1: for every stored record and every update payload, the
repository's update operation applies only the non-null fields present in
the payload and leaves every other stored field untouched; in particular,
an update containing only `{status: COMPLETED}` changes nothing but the
status, so a set `data_model_analysis` is left unchanged. -/
theorem claim_C1_update_frame (doc : CodeAnalysisDoc) (u : CodeAnalysisUpdate) (f : UpdField)
    (h : u.getF f = none) :
    (CodeAnalysisRepository.update doc u).getF f = doc.getF f ∧
    CodeAnalysisRepository.update doc statusOnlyCompleted = { doc with status := .COMPLETED } := by
  constructor
  · cases hd : u.hasUpdateData
    · simp [CodeAnalysisRepository.update, hd]
    · simpa [CodeAnalysisRepository.update, hd] using applySet_getF_frame doc u f h
  · simp [CodeAnalysisRepository.update, statusOnlyCompleted, emptyUpdate,
      CodeAnalysisUpdate.hasUpdateData, applySet, Option.orElse]

/-- Witness for C1 at a concrete record whose `data_model_analysis` is set. -/
theorem claim_C1_witness :
    (CodeAnalysisRepository.update sampleDoc statusOnlyCompleted).getF
        (.text .data_model_analysis) =
      sampleDoc.getF (.text .data_model_analysis) ∧
    CodeAnalysisRepository.update sampleDoc statusOnlyCompleted =
      { sampleDoc with status := .COMPLETED } :=
  claim_C1_update_frame sampleDoc statusOnlyCompleted (.text .data_model_analysis) rfl

/-- C5 (amended): the repository update writes `updated_at` exactly when
the payload carries it (pydantic `exclude_unset=True` drops the
default-factory timestamp unless the caller passed one), and a payload
with no non-null fields is a pure no-op read. -/
theorem claim_C5_updated_at_follows_payload (doc : CodeAnalysisDoc) (u : CodeAnalysisUpdate) :
    (u.updated_at = none →
      (CodeAnalysisRepository.update doc u).updated_at = doc.updated_at) ∧
    (∀ t, u.updated_at = some t →
      (CodeAnalysisRepository.update doc u).updated_at = t) ∧
    (u.hasUpdateData = false → CodeAnalysisRepository.update doc u = doc) := by
  refine ⟨?_, ?_, ?_⟩
  · intro h
    cases hd : u.hasUpdateData <;>
      simp [CodeAnalysisRepository.update, hd, applySet, h]
  · intro t h
    have hd : u.hasUpdateData = true := by
      simp [CodeAnalysisUpdate.hasUpdateData, h]
    simp [CodeAnalysisRepository.update, hd, applySet, h]
  · intro h
    simp [CodeAnalysisRepository.update, h]

/-- Counterexample to C5 as stated: an update whose payload carries the
single field `{status: COMPLETED}` is applied (the payload is nonempty)
but leaves the stored `updated_at` exactly as it was — the repository
does not always refresh the timestamp. -/
theorem claim_C5_counterexample :
    statusOnlyCompleted.hasUpdateData = true ∧
    statusOnlyCompleted.status = some .COMPLETED ∧
    statusOnlyCompleted.updated_at = none ∧
    (CodeAnalysisRepository.update sampleDoc statusOnlyCompleted).updated_at =
      sampleDoc.updated_at := by
  refine ⟨rfl, rfl, rfl, rfl⟩

/-- Witness for C5 discharging each hypothesis at concrete inputs. -/
theorem claim_C5_witness :
    (CodeAnalysisRepository.update sampleDoc statusOnlyCompleted).updated_at =
      sampleDoc.updated_at ∧
    (CodeAnalysisRepository.update sampleDoc
        { emptyUpdate with updated_at := some 42 }).updated_at = 42 ∧
    CodeAnalysisRepository.update sampleDoc emptyUpdate = sampleDoc :=
  ⟨(claim_C5_updated_at_follows_payload sampleDoc statusOnlyCompleted).1 rfl,
   (claim_C5_updated_at_follows_payload sampleDoc _).2.1 42 rfl,
   (claim_C5_updated_at_follows_payload sampleDoc emptyUpdate).2.2 rfl⟩

/-- C6: a lookup with an identifier that is not a well-formed ObjectId
surfaces the distinguished `InvalidId` kind from the repository, and the
HTTP layer maps it to 404, never to 500. -/
theorem claim_C6_invalid_id_maps_to_404 (store : List (String × CodeAnalysisDoc))
    (analysis_id : String)
    (h : CodeAnalysisRepository.isValidObjectId analysis_id = false) :
    CodeAnalysisRepository.get store analysis_id = .invalidId ∧
    get_code_analysis store analysis_id = .notFound ∧
    get_code_analysis store analysis_id ≠ .serverError := by
  have hg : CodeAnalysisRepository.get store analysis_id = .invalidId := by
    simp [CodeAnalysisRepository.get, h]
  exact ⟨hg, by simp [get_code_analysis, hg], by simp [get_code_analysis, hg]⟩

/-- Witness for C6 at a concrete malformed identifier. -/
theorem claim_C6_witness :
    CodeAnalysisRepository.get [(validId, sampleDoc)] "not-an-objectid" = .invalidId ∧
    get_code_analysis [(validId, sampleDoc)] "not-an-objectid" = .notFound ∧
    get_code_analysis [(validId, sampleDoc)] "not-an-objectid" ≠ .serverError :=
  claim_C6_invalid_id_maps_to_404 [(validId, sampleDoc)] "not-an-objectid" (by rfl)

/-- C9 (amended): the GET-by-id endpoint returns a projection that copies
id, repository_url, status, architecture_documentation,
ingested_repository, technologies, data_model_files, data_model_analysis,
created_at and updated_at from the stored record, but the
routes/interfaces and business-logic concern fields and
product_requirements are always null in the response, whatever the
record stores. -/
theorem claim_C9_projection_fields (store : List (String × CodeAnalysisDoc)) (i : String)
    (d : CodeAnalysisDoc) (h : CodeAnalysisRepository.get store i = .found d) :
    get_code_analysis store i = .ok (responseProjection d) ∧
    (responseProjection d).id = d.id ∧
    (responseProjection d).repository_url = d.repository_url ∧
    (responseProjection d).status = d.status ∧
    (responseProjection d).architecture_documentation = d.architecture_documentation ∧
    (responseProjection d).ingested_repository = d.ingested_repository ∧
    (responseProjection d).technologies = d.technologies ∧
    (responseProjection d).data_model_files = d.data_model_files ∧
    (responseProjection d).data_model_analysis = d.data_model_analysis ∧
    (responseProjection d).created_at = d.created_at ∧
    (responseProjection d).updated_at = d.updated_at ∧
    (responseProjection d).routes_interfaces_files = none ∧
    (responseProjection d).routes_interfaces_analysis = none ∧
    (responseProjection d).business_logic_files = none ∧
    (responseProjection d).business_logic_analysis = none ∧
    (responseProjection d).product_requirements = none := by
  refine ⟨by simp [get_code_analysis, h], ?_⟩
  simp [responseProjection]

/-- Counterexample to C9 as stated: a stored record whose
`product_requirements` and `routes_interfaces_analysis` are set is served
with both fields null in the response. -/
theorem claim_C9_counterexample :
    fullDoc.product_requirements = some "PRD" ∧
    fullDoc.routes_interfaces_analysis = some "RIA" ∧
    get_code_analysis [(validId, fullDoc)] validId = .ok (responseProjection fullDoc) ∧
    (responseProjection fullDoc).product_requirements = none ∧
    (responseProjection fullDoc).routes_interfaces_analysis = none := by
  refine ⟨rfl, rfl, by rfl, rfl, rfl⟩

/-- Witness for C9 at a concrete stored record. -/
theorem claim_C9_witness :
    get_code_analysis [(validId, fullDoc)] validId = .ok (responseProjection fullDoc) ∧
    (responseProjection fullDoc).id = fullDoc.id ∧
    (responseProjection fullDoc).repository_url = fullDoc.repository_url ∧
    (responseProjection fullDoc).status = fullDoc.status ∧
    (responseProjection fullDoc).architecture_documentation = fullDoc.architecture_documentation ∧
    (responseProjection fullDoc).ingested_repository = fullDoc.ingested_repository ∧
    (responseProjection fullDoc).technologies = fullDoc.technologies ∧
    (responseProjection fullDoc).data_model_files = fullDoc.data_model_files ∧
    (responseProjection fullDoc).data_model_analysis = fullDoc.data_model_analysis ∧
    (responseProjection fullDoc).created_at = fullDoc.created_at ∧
    (responseProjection fullDoc).updated_at = fullDoc.updated_at ∧
    (responseProjection fullDoc).routes_interfaces_files = none ∧
    (responseProjection fullDoc).routes_interfaces_analysis = none ∧
    (responseProjection fullDoc).business_logic_files = none ∧
    (responseProjection fullDoc).business_logic_analysis = none ∧
    (responseProjection fullDoc).product_requirements = none :=
  claim_C9_projection_fields [(validId, fullDoc)] validId fullDoc (by rfl)

/-- C3: `parse_xml_response` fails exactly when a `<files>` marker is
absent or zero files were extracted after processing all sections; a
malformed individual section is skipped rather than aborting the parse;
and a bundle with two well-formed line-numbered files parses to a mapping
with exactly two keys whose contents have the `N: ` markers stripped. -/
theorem claim_C3_parse_xml_response :
    (∀ xml : String,
      isParseError (parse_xml_response xml) = true ↔
        (findSub filesOpenTag xml.data = none ∨ findSub filesCloseTag xml.data = none ∨
          extractedFiles xml = [])) ∧
    parse_xml_response twoFileBundle =
      .ok [("src/a.py", "def a():\n    return 1"), ("b.md", "# Title\ntext")] ∧
    (parse_xml_response twoFileBundle).toOption.map List.length = some 2 ∧
    parse_xml_response skipSectionBundle = .ok [("src/a.py", "x = 1"), ("c.md", "plain")] ∧
    isParseError (parse_xml_response noMarkersBundle) = true := by
  refine ⟨?_, by rfl, by rfl, by rfl, by rfl⟩
  intro xml
  unfold parse_xml_response
  rcases h1 : findSub filesOpenTag xml.data with _ | fs
  · simp [isParseError, h1]
  · rcases h2 : findSub filesCloseTag xml.data with _ | fe
    · simp [isParseError, h2]
    · by_cases he : extractedFiles xml = []
      · simp [isParseError, h1, h2, he]
      · simp [isParseError, h1, h2, he]

/-- C10: `retrieve_files` never raises — each failure path (missing
configuration, raised HTTP call, non-200 response, parse failure) returns
a dictionary carrying an `"error"` key, and the success path returns the
parsed path-to-content mapping. -/
theorem claim_C10_retrieve_files_total (apiUrl : Option String) (call : HttpCall) :
    (pyTruthy apiUrl = false →
      ((retrieve_files apiUrl call).lookup "error").isSome = true) ∧
    (∀ m, pyTruthy apiUrl = true → call = .raises m →
      ((retrieve_files apiUrl call).lookup "error").isSome = true) ∧
    (∀ stc body, pyTruthy apiUrl = true → call = .responds stc body → stc ≠ 200 →
      ((retrieve_files apiUrl call).lookup "error").isSome = true) ∧
    (∀ body e, pyTruthy apiUrl = true → call = .responds 200 body →
      parse_xml_response body = .error e →
      ((retrieve_files apiUrl call).lookup "error").isSome = true) ∧
    (∀ body m, pyTruthy apiUrl = true → call = .responds 200 body →
      parse_xml_response body = .ok m →
      retrieve_files apiUrl call = m) := by
  refine ⟨?_, ?_, ?_, ?_, ?_⟩
  · intro h
    simp [retrieve_files, h, List.lookup]
  · intro m h hc
    subst hc
    simp [retrieve_files, h, List.lookup]
  · intro stc body h hc hs
    subst hc
    simp [retrieve_files, h, hs, List.lookup]
  · intro body e h hc hp
    subst hc
    simp [retrieve_files, h, hp, List.lookup]
  · intro body m h hc hp
    subst hc
    simp [retrieve_files, h, hp]

/-- Witness for C10 exercising every path at concrete inputs. -/
theorem claim_C10_witness :
    ((retrieve_files none (.raises "net down")).lookup "error").isSome = true ∧
    ((retrieve_files (some "http://svc") (.raises "net down")).lookup "error").isSome = true ∧
    ((retrieve_files (some "http://svc") (.responds 503 "oops")).lookup "error").isSome = true ∧
    ((retrieve_files (some "http://svc") (.responds 200 noMarkersBundle)).lookup
        "error").isSome = true ∧
    retrieve_files (some "http://svc") (.responds 200 twoFileBundle) =
      [("src/a.py", "def a():\n    return 1"), ("b.md", "# Title\ntext")] :=
  ⟨(claim_C10_retrieve_files_total none (.raises "net down")).1 rfl,
   (claim_C10_retrieve_files_total (some "http://svc") (.raises "net down")).2.1
     "net down" rfl rfl,
   (claim_C10_retrieve_files_total (some "http://svc") (.responds 503 "oops")).2.2.1
     503 "oops" rfl rfl (by decide),
   (claim_C10_retrieve_files_total (some "http://svc")
       (.responds 200 noMarkersBundle)).2.2.2.1 noMarkersBundle
     "Failed to parse XML response: Invalid XML format: missing <files> section"
     rfl rfl (by rfl),
   (claim_C10_retrieve_files_total (some "http://svc")
       (.responds 200 twoFileBundle)).2.2.2.2 twoFileBundle
     [("src/a.py", "def a():\n    return 1"), ("b.md", "# Title\ntext")]
     rfl rfl (by rfl)⟩

theorem orElse_none_orElse_self {α : Type} (a : Option α) :
    (a.orElse (fun _ => none)).orElse (fun _ => a) = a := by
  cases a <;> rfl

theorem orElse_self {α : Type} (a : Option α) : (a.orElse fun _ => a) = a := by
  cases a <;> rfl

/-- A nonempty payload is applied as a `$set`. -/
theorem update_eq_applySet (d : CodeAnalysisDoc) (u : CodeAnalysisUpdate)
    (h : u.hasUpdateData = true) : CodeAnalysisRepository.update d u = applySet d u := by
  simp [CodeAnalysisRepository.update, h]

/-- The factory error write carries status `ERROR`, the message, and when
applied to the same document it read, leaves every text field as it was. -/
theorem update_error_write_fields (cur : CodeAnalysisDoc) (msg : String) (now : Nat) :
    (CodeAnalysisRepository.update cur (update_db_on_error (some cur) msg now)).status =
      .ERROR ∧
    (CodeAnalysisRepository.update cur (update_db_on_error (some cur) msg now)).error =
      some msg ∧
    ∀ f : TextField,
      (CodeAnalysisRepository.update cur (update_db_on_error (some cur) msg now)).getText f =
        cur.getText f := by
  have hd : (update_db_on_error (some cur) msg now).hasUpdateData = true := by
    simp [update_db_on_error, carryForward, emptyUpdate, CodeAnalysisUpdate.hasUpdateData]
  rw [update_eq_applySet _ _ hd]
  refine ⟨?_, ?_, ?_⟩
  · simp [applySet, update_db_on_error, carryForward, emptyUpdate]
  · simp [applySet, update_db_on_error, carryForward, emptyUpdate]
  · intro f
    cases f <;>
      simp [applySet, update_db_on_error, carryForward, emptyUpdate,
        CodeAnalysisDoc.getText, orElse_none_orElse_self, orElse_self]

/-- The factory result write stores the produced text in its output field
with status `COMPLETED`. -/
theorem update_result_write_fields (cur : CodeAnalysisDoc) (f : TextField) (res : String)
    (now : Nat) :
    (CodeAnalysisRepository.update cur
        (analysis_update_db_with_result (some cur) f res now)).getText f = some res ∧
    (CodeAnalysisRepository.update cur
        (analysis_update_db_with_result (some cur) f res now)).status = .COMPLETED := by
  have hd : (analysis_update_db_with_result (some cur) f res now).hasUpdateData = true := by
    cases f <;>
      simp [analysis_update_db_with_result, carryForward, emptyUpdate,
        CodeAnalysisUpdate.setText, CodeAnalysisUpdate.hasUpdateData]
  rw [update_eq_applySet _ _ hd]
  constructor
  · cases f <;>
      simp [applySet, analysis_update_db_with_result, carryForward, emptyUpdate,
        CodeAnalysisUpdate.setText, CodeAnalysisDoc.getText]
  · cases f <;>
      simp [applySet, analysis_update_db_with_result, carryForward, emptyUpdate,
        CodeAnalysisUpdate.setText]

/-- C4: a text returned by the agent layer is treated as a failure
exactly when it begins with `"Error"`: then the stage records status
`ERROR` with an error message and does not store the text as the
concern's analysis field; otherwise the text is stored verbatim with
status `COMPLETED`. Both failure paths of `run_analysis_agent` produce
`"Error"`-prefixed text. -/
theorem claim_C4_error_signal (cur : CodeAnalysisDoc) (analysis_id : Option String)
    (analysis_type : String) (f : TextField) (res : String) (now : Nat)
    (hid : pyTruthy analysis_id = true) :
    (pyStartsWith res "Error" = true →
      (handle_agent_result (some cur) analysis_id analysis_type f res now).statePartial =
        .errorOnly (analysis_type ++ " analysis failed: " ++ res) ∧
      (handle_agent_result (some cur) analysis_id analysis_type f res now).dbUpdate =
        some (update_db_on_error (some cur) (analysis_type ++ " analysis failed: " ++ res) now) ∧
      (CodeAnalysisRepository.update cur
          (update_db_on_error (some cur) (analysis_type ++ " analysis failed: " ++ res)
            now)).status = .ERROR ∧
      (CodeAnalysisRepository.update cur
          (update_db_on_error (some cur) (analysis_type ++ " analysis failed: " ++ res)
            now)).error = some (analysis_type ++ " analysis failed: " ++ res) ∧
      (CodeAnalysisRepository.update cur
          (update_db_on_error (some cur) (analysis_type ++ " analysis failed: " ++ res)
            now)).getText f = cur.getText f) ∧
    (pyStartsWith res "Error" = false →
      (handle_agent_result (some cur) analysis_id analysis_type f res now).statePartial =
        .fieldValue f res ∧
      (handle_agent_result (some cur) analysis_id analysis_type f res now).dbUpdate =
        some (analysis_update_db_with_result (some cur) f res now) ∧
      (CodeAnalysisRepository.update cur
          (analysis_update_db_with_result (some cur) f res now)).getText f = some res ∧
      (CodeAnalysisRepository.update cur
          (analysis_update_db_with_result (some cur) f res now)).status = .COMPLETED) ∧
    pyStartsWith (run_analysis_agent .noAIMessage) "Error" = true ∧
    (∀ m, pyStartsWith (run_analysis_agent (.raises m)) "Error" = true) := by
  refine ⟨?_, ?_, by rfl, ?_⟩
  · intro hres
    have he := update_error_write_fields cur (analysis_type ++ " analysis failed: " ++ res) now
    exact ⟨by simp [handle_agent_result, hres], by simp [handle_agent_result, hres, hid],
      he.1, he.2.1, he.2.2 f⟩
  · intro hres
    have hs := update_result_write_fields cur f res now
    exact ⟨by simp [handle_agent_result, hres], by simp [handle_agent_result, hres, hid],
      hs.1, hs.2⟩
  · intro m
    have hdata : (run_analysis_agent (.raises m)).data =
        "Error in analysis: ".data ++ m.data := by
      simp [run_analysis_agent, String.data_append]
    have hpre : "Error".data <+: "Error in analysis: ".data ++ m.data :=
      List.IsPrefix.trans (by decide) (List.prefix_append _ _)
    rw [pyStartsWith, hdata, List.isPrefixOf_iff_prefix]
    exact hpre

/-- Witness for C4 at concrete failing and succeeding agent texts. -/
theorem claim_C4_witness :
    (handle_agent_result (some sampleDoc) (some validId) "Business Logic"
        .business_logic_analysis "Error: No response from agent" 7).statePartial =
      .errorOnly ("Business Logic" ++ " analysis failed: " ++ "Error: No response from agent") ∧
    (handle_agent_result (some sampleDoc) (some validId) "Business Logic"
        .business_logic_analysis "All good" 7).statePartial =
      .fieldValue .business_logic_analysis "All good" ∧
    (CodeAnalysisRepository.update sampleDoc
        (analysis_update_db_with_result (some sampleDoc) .business_logic_analysis
          "All good" 7)).getText .business_logic_analysis = some "All good" :=
  ⟨((claim_C4_error_signal sampleDoc (some validId) "Business Logic"
      .business_logic_analysis "Error: No response from agent" 7 rfl).1 (by rfl)).1,
   ((claim_C4_error_signal sampleDoc (some validId) "Business Logic"
      .business_logic_analysis "All good" 7 rfl).2.1 (by rfl)).1,
   ((claim_C4_error_signal sampleDoc (some validId) "Business Logic"
      .business_logic_analysis "All good" 7 rfl).2.1 (by rfl)).2.2.1⟩

/-- C7: the synthesis stage short-circuits with an error and makes no
model call when any concern analysis is absent; when all three are
present (non-null, non-empty) and the model call succeeds, the output is
stored as `product_requirements` and the status transitions to
`COMPLETED`. -/
theorem claim_C7_synthesis (cur : CodeAnalysisDoc) (analysis_id : Option String)
    (dm ri bl : Option String) (now : Nat) (mo : Except String String) :
    ((dm = none ∨ ri = none ∨ bl = none) →
      (product_requirements_node (some cur) analysis_id dm ri bl now mo).modelCalled =
        false ∧
      (product_requirements_node (some cur) analysis_id dm ri bl now mo).statePartial =
        .errorOnly "Missing one or more required analyses for product requirements generation") ∧
    (∀ pr, pyTruthy dm = true → pyTruthy ri = true → pyTruthy bl = true →
      mo = .ok pr → pyTruthy analysis_id = true →
      (product_requirements_node (some cur) analysis_id dm ri bl now mo).modelCalled = true ∧
      (product_requirements_node (some cur) analysis_id dm ri bl now mo).statePartial =
        .fieldValue .product_requirements pr ∧
      (product_requirements_node (some cur) analysis_id dm ri bl now mo).dbUpdate =
        some (analysis_update_db_with_result (some cur) .product_requirements pr now) ∧
      (CodeAnalysisRepository.update cur
          (analysis_update_db_with_result (some cur) .product_requirements pr
            now)).product_requirements = some pr ∧
      (CodeAnalysisRepository.update cur
          (analysis_update_db_with_result (some cur) .product_requirements pr
            now)).status = .COMPLETED) := by
  constructor
  · intro h
    have hfalsy : (!(pyTruthy dm) || !(pyTruthy ri) || !(pyTruthy bl)) = true := by
      rcases h with h | h | h <;> simp [h, pyTruthy]
    simp [product_requirements_node, hfalsy]
  · intro pr hdm hri hbl hmo hid
    subst hmo
    have hs := update_result_write_fields cur .product_requirements pr now
    refine ⟨?_, ?_, ?_,
      by simpa [CodeAnalysisDoc.getText] using hs.1, hs.2⟩ <;>
      simp [product_requirements_node, hdm, hri, hbl, hid]

/-- Witness for C7: an absent analysis short-circuits; three present
analyses with a successful model call store the document. -/
theorem claim_C7_witness :
    (product_requirements_node (some sampleDoc) (some validId) none (some "RIA")
        (some "BLA") 7 (.ok "PRD")).modelCalled = false ∧
    (product_requirements_node (some sampleDoc) (some validId) (some "DMA") (some "RIA")
        (some "BLA") 7 (.ok "PRD")).statePartial = .fieldValue .product_requirements "PRD" ∧
    (CodeAnalysisRepository.update sampleDoc
        (analysis_update_db_with_result (some sampleDoc) .product_requirements "PRD"
          7)).product_requirements = some "PRD" :=
  ⟨((claim_C7_synthesis sampleDoc (some validId) none (some "RIA") (some "BLA") 7
      (.ok "PRD")).1 (Or.inl rfl)).1,
   ((claim_C7_synthesis sampleDoc (some validId) (some "DMA") (some "RIA") (some "BLA") 7
      (.ok "PRD")).2 "PRD" rfl rfl rfl rfl rfl).2.1,
   ((claim_C7_synthesis sampleDoc (some validId) (some "DMA") (some "RIA") (some "BLA") 7
      (.ok "PRD")).2 "PRD" rfl rfl rfl rfl rfl).2.2.2.1⟩

/-- The status an update leaves behind is either from the payload or the
document's own. -/
theorem update_status_cases (c : CodeAnalysisDoc) (u : CodeAnalysisUpdate) :
    (CodeAnalysisRepository.update c u).status = u.status.getD c.status ∨
    (CodeAnalysisRepository.update c u).status = c.status := by
  cases h : u.hasUpdateData
  · right
    simp [CodeAnalysisRepository.update, h]
  · left
    simp [CodeAnalysisRepository.update, h, applySet]

/-- Every system write's payload status is absent, `ERROR`, `COMPLETED`,
or a carry-forward of the current document's own status. -/
theorem systemWrite_status (w : SystemWrite) (cur : Option CodeAnalysisDoc) :
    (w.payload cur).status = none ∨ (w.payload cur).status = some .ERROR ∨
    (w.payload cur).status = some .COMPLETED ∨
    (∃ c, cur = some c ∧ (w.payload cur).status = some c.status) := by
  cases w with
  | ingestSuccess repo techs =>
    left
    simp [SystemWrite.payload, emptyUpdate]
  | ingestFailure =>
    right; left
    simp [SystemWrite.payload, emptyUpdate]
  | dmNodeError msg now =>
    right; left
    simp [SystemWrite.payload, dm_node_error_update, emptyUpdate]
  | dmIdentSuccess files now =>
    cases cur with
    | none =>
      left
      simp [SystemWrite.payload, dm_ident_success_update, emptyUpdate]
    | some c =>
      right; right; right
      exact ⟨c, rfl, by simp [SystemWrite.payload, dm_ident_success_update, emptyUpdate]⟩
  | dmAnalysisSuccess result now =>
    right; right; left
    simp [SystemWrite.payload, dm_analysis_success_update, emptyUpdate]
  | identFactorySuccess f files now =>
    cases cur with
    | none =>
      left
      cases f <;>
        simp [SystemWrite.payload, ident_update_db_with_result, CodeAnalysisUpdate.setList,
          emptyUpdate]
    | some c =>
      right; right; right
      refine ⟨c, rfl, ?_⟩
      cases f <;>
        simp [SystemWrite.payload, ident_update_db_with_result, CodeAnalysisUpdate.setList,
          carryForward, emptyUpdate]
  | factoryError msg now =>
    right; left
    cases cur with
    | none => simp [SystemWrite.payload, update_db_on_error, emptyUpdate]
    | some c => simp [SystemWrite.payload, update_db_on_error, carryForward, emptyUpdate]
  | analysisFactorySuccess f result now =>
    right; right; left
    cases cur with
    | none =>
      cases f <;>
        simp [SystemWrite.payload, analysis_update_db_with_result, CodeAnalysisUpdate.setText,
          emptyUpdate]
    | some c =>
      cases f <;>
        simp [SystemWrite.payload, analysis_update_db_with_result, CodeAnalysisUpdate.setText,
          carryForward, emptyUpdate]
  | archDocSuccess result =>
    right; right; left
    simp [SystemWrite.payload, emptyUpdate]
  | archDocFailure =>
    right; left
    simp [SystemWrite.payload, emptyUpdate]
  | driverError msg =>
    right; left
    simp [SystemWrite.payload, emptyUpdate]
  | driverCompleted =>
    right; right; left
    simp [SystemWrite.payload, emptyUpdate]
  | serviceError =>
    right; left
    simp [SystemWrite.payload, emptyUpdate]

/-- C2 (amended): no write performed anywhere in the system ever sets a
record's status to `IN_PROGRESS` (beyond carrying forward a record that
is already `IN_PROGRESS`), so no record leaves `ERROR` or `COMPLETED`
back to `IN_PROGRESS`. Terminal states are, however, not sticky between
themselves: a later stage write can move `ERROR` to `COMPLETED` and
conversely (see the counterexample). -/
theorem claim_C2_no_return_to_in_progress (w : SystemWrite) (cur : Option CodeAnalysisDoc) :
    ((w.payload cur).status = some .IN_PROGRESS →
      ∃ c, cur = some c ∧ c.status = .IN_PROGRESS) ∧
    (∀ c, c.status ≠ .IN_PROGRESS →
      (CodeAnalysisRepository.update c (w.payload (some c))).status ≠ .IN_PROGRESS) := by
  constructor
  · intro h
    rcases systemWrite_status w cur with h0 | h0 | h0 | ⟨c, hc, h0⟩ <;> rw [h0] at h
    · exact absurd h (by simp)
    · exact absurd (Option.some.inj h) (by simp)
    · exact absurd (Option.some.inj h) (by simp)
    · exact ⟨c, hc, Option.some.inj h⟩
  · intro c hc
    rcases update_status_cases c (w.payload (some c)) with h0 | h0
    · rw [h0]
      rcases systemWrite_status w (some c) with h1 | h1 | h1 | ⟨c2, hc2, h1⟩ <;> rw [h1]
      · simpa using hc
      · simp
      · simp
      · rw [Option.some.inj hc2] at hc ⊢
        simpa using hc
    · rw [h0]
      exact hc

/-- Counterexample to C2 as stated: a record already in the terminal
`ERROR` state is moved to `COMPLETED` by the analysis factory's success
write — a transition the claim forbids. -/
theorem claim_C2_counterexample :
    erroredDoc.status = .ERROR ∧
    (CodeAnalysisRepository.update erroredDoc
        ((SystemWrite.analysisFactorySuccess .business_logic_analysis "report" 11).payload
          (some erroredDoc))).status = .COMPLETED :=
  ⟨rfl, by rfl⟩

/-- Witness for C2 discharging both hypotheses at concrete inputs. -/
theorem claim_C2_witness :
    (∃ c, (some sampleDoc : Option CodeAnalysisDoc) = some c ∧ c.status = .IN_PROGRESS) ∧
    (CodeAnalysisRepository.update erroredDoc
        ((SystemWrite.factoryError "stage failed" 3).payload (some erroredDoc))).status ≠
      .IN_PROGRESS :=
  ⟨(claim_C2_no_return_to_in_progress (.dmIdentSuccess ["m.py"] 4) (some sampleDoc)).1
     (by rfl),
   (claim_C2_no_return_to_in_progress (.factoryError "stage failed" 3)
       (some erroredDoc)).2 erroredDoc (by decide)⟩

/-- The driver's error write forces status `ERROR`. -/
theorem error_write_status (db : CodeAnalysisDoc) (m : Option String) :
    (CodeAnalysisRepository.update db
        { emptyUpdate with status := some .ERROR, error := m }).status = .ERROR := by
  have hd : ({ emptyUpdate with status := some .ERROR, error := m } :
      CodeAnalysisUpdate).hasUpdateData = true := by
    simp [emptyUpdate, CodeAnalysisUpdate.hasUpdateData]
  rw [update_eq_applySet _ _ hd]
  simp [applySet, emptyUpdate]

/-- The driver's error write records the message. -/
theorem error_write_error (db : CodeAnalysisDoc) (msg : String) :
    (CodeAnalysisRepository.update db
        { emptyUpdate with status := some .ERROR, error := some msg }).error = some msg := by
  have hd : ({ emptyUpdate with status := some .ERROR, error := some msg } :
      CodeAnalysisUpdate).hasUpdateData = true := by
    simp [emptyUpdate, CodeAnalysisUpdate.hasUpdateData]
  rw [update_eq_applySet _ _ hd]
  simp [applySet, emptyUpdate]

theorem missing_analyses_msg_nonempty :
    ("Missing one or more required analyses for product requirements generation" :
      String).isEmpty = false := rfl

/-- C8: when the ingest stage fails, the stored record ends with status
`ERROR` and a non-null error message, and none of the three
identification nodes attempts its model call — their required input, the
ingested repository text, is absent, so each short-circuits. -/
theorem claim_C8_ingest_failure (o : PipelineOutcomes) (repository_url analysis_id : String)
    (db0 : CodeAnalysisDoc) (e : String) (h : o.ingest = .error e) :
    (run_code_analysis_workflow o repository_url analysis_id db0).db.status = .ERROR ∧
    (run_code_analysis_workflow o repository_url analysis_id db0).db.error ≠ none ∧
    (run_code_analysis_workflow o repository_url analysis_id db0).identDMAttempted = false ∧
    (run_code_analysis_workflow o repository_url analysis_id db0).identRIAttempted = false ∧
    (run_code_analysis_workflow o repository_url analysis_id db0).identBLAttempted = false := by
  unfold run_code_analysis_workflow
  rw [h]
  cases hRI : o.agentRI with
  | none =>
    simp [repository_ingest_node, data_model_identification_node, identification_node,
      data_model_analysis_node, analysis_node, pyTruthy, pyTruthyList, GState.getList,
      driver_abort, error_write_status, error_write_error]
  | some agRI =>
    cases hBL : o.agentBL with
    | none =>
      simp [repository_ingest_node, data_model_identification_node, identification_node,
        data_model_analysis_node, analysis_node, pyTruthy, pyTruthyList, GState.getList,
        driver_abort, error_write_status, error_write_error]
    | some agBL =>
      simp [repository_ingest_node, data_model_identification_node, identification_node,
        data_model_analysis_node, analysis_node, product_requirements_node, driver_finalize,
        pyTruthy, pyTruthyList, GState.getList, error_write_status, error_write_error,
        missing_analyses_msg_nonempty]

/-- Witness for C8 at a concrete failing ingest run. -/
theorem claim_C8_witness :
    (run_code_analysis_workflow
        { ingest := .error "Repository Ingest API failed: 503"
          identDM := .ok ["m.py"]
          identRI := .ok ["r.py"]
          identBL := .ok ["b.py"]
          dmApiUrl := some "http://svc"
          dmFilesCall := .responds 200 twoFileBundle
          dmModel := .ok "DMA"
          agentRI := some (.finalMessage "RIA")
          agentBL := some (.finalMessage "BLA")
          synth := .ok "PRD"
          now := 9 }
        "https://github.com/org/repo" validId sampleDoc).db.status = .ERROR ∧
    (run_code_analysis_workflow
        { ingest := .error "Repository Ingest API failed: 503"
          identDM := .ok ["m.py"]
          identRI := .ok ["r.py"]
          identBL := .ok ["b.py"]
          dmApiUrl := some "http://svc"
          dmFilesCall := .responds 200 twoFileBundle
          dmModel := .ok "DMA"
          agentRI := some (.finalMessage "RIA")
          agentBL := some (.finalMessage "BLA")
          synth := .ok "PRD"
          now := 9 }
        "https://github.com/org/repo" validId sampleDoc).db.error ≠ none ∧
    (run_code_analysis_workflow
        { ingest := .error "Repository Ingest API failed: 503"
          identDM := .ok ["m.py"]
          identRI := .ok ["r.py"]
          identBL := .ok ["b.py"]
          dmApiUrl := some "http://svc"
          dmFilesCall := .responds 200 twoFileBundle
          dmModel := .ok "DMA"
          agentRI := some (.finalMessage "RIA")
          agentBL := some (.finalMessage "BLA")
          synth := .ok "PRD"
          now := 9 }
        "https://github.com/org/repo" validId sampleDoc).identDMAttempted = false := by
  have hfull := claim_C8_ingest_failure
    { ingest := .error "Repository Ingest API failed: 503"
      identDM := .ok ["m.py"]
      identRI := .ok ["r.py"]
      identBL := .ok ["b.py"]
      dmApiUrl := some "http://svc"
      dmFilesCall := .responds 200 twoFileBundle
      dmModel := .ok "DMA"
      agentRI := some (.finalMessage "RIA")
      agentBL := some (.finalMessage "BLA")
      synth := .ok "PRD"
      now := 9 }
    "https://github.com/org/repo" validId sampleDoc "Repository Ingest API failed: 503" rfl
  exact ⟨hfull.1, hfull.2.1, hfull.2.2.1⟩

end CodeAnalysis
